import Mathlib

/-!
Verification of the `wire` error-taxonomy module (`wire/error.go`).

The module defines an integer-backed enumeration `ErrorCode`, a structured
error value `MessageError` pairing a code with a function name and a
description, a name table used for rendering, and the `Is`/`Unwrap`
protocol used by the standard library's error matching.

Embedding choices:
  * Go's `type ErrorCode int` becomes `Int`.
  * The Go `error` interface values that can appear as an `Is` target are
    modelled by the sum type `GoError`: a bare `ErrorCode`, a
    `*MessageError` pointer (`Option MessageError`, `none` being the nil
    pointer), the nil interface, and any other shape.
  * `Is` returns `Option Bool`: `none` models the runtime fault (nil
    pointer dereference) that the Go code hits when the target is a nil
    `*MessageError`; `some b` models a normal boolean return.
  * The Go map lookup `errorCodeStrings[e]` yields the zero value `""`
    when the key is absent; `mapIndex` reproduces that.
-/

/-- Go: `type ErrorCode int`. -/
abbrev ErrorCode := Int

/-- Go: `ErrVarBytesTooLong ErrorCode = iota` (ordinal 0). -/
def ErrVarBytesTooLong : ErrorCode := 0

/-- Ordinal 1 of the enumeration. -/
def ErrMsgInvalidForPVer : ErrorCode := 1

/-- Ordinal 2 of the enumeration. -/
def ErrInvalidMsg : ErrorCode := 2

/-- Ordinal 3 of the enumeration. -/
def ErrMalformedStrictString : ErrorCode := 3

/-- Ordinal 4 of the enumeration. -/
def ErrTooManyManyMixPairReqs : ErrorCode := 4

/-- Ordinal 5 of the enumeration. -/
def ErrMixPairReqScriptClassTooLong : ErrorCode := 5

/-- Ordinal 6 of the enumeration. -/
def ErrTooManyMixPairReqUTXOs : ErrorCode := 6

/-- Ordinal 7 of the enumeration. -/
def ErrTooManyPrevMixMsgs : ErrorCode := 7

/-- Go: `var errorCodeStrings = map[ErrorCode]string{...}` (four entries). -/
def errorCodeStrings : List (ErrorCode × String) :=
  [(ErrTooManyManyMixPairReqs, "ErrTooManyManyMixPairReqs"),
   (ErrMixPairReqScriptClassTooLong, "ErrMixPairReqScriptClassTooLong"),
   (ErrTooManyMixPairReqUTXOs, "ErrTooManyMixPairReqUTXOs"),
   (ErrTooManyPrevMixMsgs, "ErrTooManyPrevMixMsgs")]

/-- Go map indexing `m[e]` on a `map[ErrorCode]string`: the zero value
`""` is returned when the key is absent. -/
def mapIndex : List (ErrorCode × String) → ErrorCode → String
  | [], _ => ""
  | (k, v) :: rest, e => if k = e then v else mapIndex rest e

/-- Go: `func (e ErrorCode) String() string`. -/
def ErrorCodeString (e : ErrorCode) : String :=
  let s := mapIndex errorCodeStrings e
  if s ≠ "" then s
  else "Unknown ErrorCode (" ++ toString e ++ ")"

/-- Go: `func (e ErrorCode) Error() string { return e.String() }`. -/
def ErrorCodeError (e : ErrorCode) : String :=
  ErrorCodeString e

/-- Go: `type MessageError struct { Func string; ErrorCode ErrorCode;
Description string }`. -/
structure MessageError where
  Func : String
  ErrorCode : Int
  Description : String
  deriving DecidableEq

/-- Go: `func (e *MessageError) Error() string`. `fmt.Sprintf("%v: %v", ...)`
on two strings is literal concatenation with `": "` between them. -/
def MessageError.Error (e : MessageError) : String :=
  if e.Func ≠ "" then e.Func ++ ": " ++ e.Description
  else e.Description

/-- Go: `func messageError(f string, desc string) *MessageError`: the
`ErrorCode` field is left at its zero value 0. -/
def messageError (f : String) (desc : String) : MessageError :=
  { Func := f, ErrorCode := 0, Description := desc }

/-- Go: `func messageErrorWithCode(funcName string, c ErrorCode, desc string)
*MessageError`. -/
def messageErrorWithCode (funcName : String) (c : ErrorCode) (desc : String) :
    MessageError :=
  { Func := funcName, ErrorCode := c, Description := desc }

/-- The Go `error` interface values relevant to the `Is`/`Unwrap` protocol:
a bare `ErrorCode`, a `*MessageError` pointer (possibly nil), the nil
interface, or an unrelated error shape. -/
inductive GoError where
  | codeErr (c : ErrorCode)
  | msgErrPtr (p : Option MessageError)
  | nilErr
  | otherErr
  deriving DecidableEq

/-- Go: `func (e ErrorCode) Is(target error) bool`. The `*MessageError`
case reads `target.ErrorCode` without a nil guard, so a nil pointer is a
runtime fault, modelled as `none`. -/
def ErrorCode.Is (e : ErrorCode) (target : GoError) : Option Bool :=
  match target with
  | .msgErrPtr none => none
  | .msgErrPtr (some m) => some (e == m.ErrorCode)
  | .codeErr c => some (e == c)
  | _ => some false

/-- Go: `func (e *MessageError) Is(target error) bool`. Same shape dispatch
as `ErrorCode.Is`; the `ErrorCode` case is written `target == e.ErrorCode`
in the source. -/
def MessageError.Is (e : MessageError) (target : GoError) : Option Bool :=
  match target with
  | .msgErrPtr none => none
  | .msgErrPtr (some m) => some (e.ErrorCode == m.ErrorCode)
  | .codeErr c => some (c == e.ErrorCode)
  | _ => some false

/-- Go: `func (e *MessageError) Unwrap() error { return e.ErrorCode }`.
The returned interface wraps an `ErrorCode` value and is never nil. -/
def MessageError.Unwrap (e : MessageError) : GoError :=
  GoError.codeErr e.ErrorCode

/-- The fallback rendering is never the empty string. -/
theorem fallback_ne_empty (e : ErrorCode) :
    "Unknown ErrorCode (" ++ toString e ++ ")" ≠ "" := by
  intro h
  have hl := congrArg String.length h
  simp [String.length_append] at hl
  exact absurd hl.1.1 (by decide)

/-- C1: matching is reflexive across representations: a `MessageError`
built by `messageErrorWithCode f c d` matches (via `Is`) the bare
`ErrorCode` `c`, and matches any `MessageError` built with the same
category and arbitrary other function name and description. -/
theorem c1_match_reflexive (c : ErrorCode) (f d g e : String) :
    MessageError.Is (messageErrorWithCode f c d) (GoError.codeErr c) = some true ∧
    MessageError.Is (messageErrorWithCode f c d)
      (GoError.msgErrPtr (some (messageErrorWithCode g c e))) = some true := by
  constructor <;> simp [MessageError.Is, messageErrorWithCode]

/-- C2: matching is category-exact: when `A ≠ B`, a `MessageError` carrying
`A` matches neither the bare `ErrorCode` `B` nor a `MessageError` carrying
`B`, and the bare `ErrorCode` `A` matches neither shape carrying `B`. -/
theorem c2_category_exact (A B : ErrorCode) (f d g e : String) (h : A ≠ B) :
    MessageError.Is (messageErrorWithCode f A d) (GoError.codeErr B) = some false ∧
    MessageError.Is (messageErrorWithCode f A d)
      (GoError.msgErrPtr (some (messageErrorWithCode g B e))) = some false ∧
    ErrorCode.Is A (GoError.codeErr B) = some false ∧
    ErrorCode.Is A (GoError.msgErrPtr (some (messageErrorWithCode g B e)))
      = some false := by
  refine ⟨?_, ?_, ?_, ?_⟩ <;>
    simp [MessageError.Is, ErrorCode.Is, messageErrorWithCode, h, Ne.symm h]

/-- Witness for C2 at concrete distinct categories 0 and 1. -/
theorem c2_category_exact_witness :
    MessageError.Is (messageErrorWithCode "f" 0 "d") (GoError.codeErr 1) = some false ∧
    MessageError.Is (messageErrorWithCode "f" 0 "d")
      (GoError.msgErrPtr (some (messageErrorWithCode "g" 1 "e"))) = some false ∧
    ErrorCode.Is 0 (GoError.codeErr 1) = some false ∧
    ErrorCode.Is 0 (GoError.msgErrPtr (some (messageErrorWithCode "g" 1 "e")))
      = some false :=
  c2_category_exact 0 1 "f" "d" "g" "e" (by decide)

/-- C3: rendering an `ErrorCode` always succeeds with a non-empty string:
the four registered categories render to their registered names, and every
other value renders to the fallback with its ordinal substituted. -/
theorem c3_render_errorcode (e : ErrorCode)
    (h4 : e ≠ ErrTooManyManyMixPairReqs)
    (h5 : e ≠ ErrMixPairReqScriptClassTooLong)
    (h6 : e ≠ ErrTooManyMixPairReqUTXOs)
    (h7 : e ≠ ErrTooManyPrevMixMsgs) :
    ErrorCodeString ErrTooManyManyMixPairReqs = "ErrTooManyManyMixPairReqs" ∧
    ErrorCodeString ErrMixPairReqScriptClassTooLong
      = "ErrMixPairReqScriptClassTooLong" ∧
    ErrorCodeString ErrTooManyMixPairReqUTXOs = "ErrTooManyMixPairReqUTXOs" ∧
    ErrorCodeString ErrTooManyPrevMixMsgs = "ErrTooManyPrevMixMsgs" ∧
    (∀ x : ErrorCode, ErrorCodeString x ≠ "") ∧
    ErrorCodeString e = "Unknown ErrorCode (" ++ toString e ++ ")" := by
  have hlook : mapIndex errorCodeStrings e = "" := by
    simp only [mapIndex, errorCodeStrings, ErrTooManyManyMixPairReqs,
      ErrMixPairReqScriptClassTooLong, ErrTooManyMixPairReqUTXOs,
      ErrTooManyPrevMixMsgs]
    rw [if_neg (show ¬((4 : Int) = e) from fun hh => h4 hh.symm),
        if_neg (show ¬((5 : Int) = e) from fun hh => h5 hh.symm),
        if_neg (show ¬((6 : Int) = e) from fun hh => h6 hh.symm),
        if_neg (show ¬((7 : Int) = e) from fun hh => h7 hh.symm)]
  refine ⟨by decide, by decide, by decide, by decide, ?_, ?_⟩
  · intro x
    by_cases hx : mapIndex errorCodeStrings x = ""
    · simpa [ErrorCodeString, hx] using fallback_ne_empty x
    · simp [ErrorCodeString, hx]
  · simp [ErrorCodeString, hlook]

/-- Witness for C3 at the unregistered ordinal 0. -/
theorem c3_render_errorcode_witness :
    ErrorCodeString ErrTooManyManyMixPairReqs = "ErrTooManyManyMixPairReqs" ∧
    ErrorCodeString ErrMixPairReqScriptClassTooLong
      = "ErrMixPairReqScriptClassTooLong" ∧
    ErrorCodeString ErrTooManyMixPairReqUTXOs = "ErrTooManyMixPairReqUTXOs" ∧
    ErrorCodeString ErrTooManyPrevMixMsgs = "ErrTooManyPrevMixMsgs" ∧
    (∀ x : ErrorCode, ErrorCodeString x ≠ "") ∧
    ErrorCodeString 0 = "Unknown ErrorCode (" ++ toString (0 : Int) ++ ")" :=
  c3_render_errorcode 0 (by decide) (by decide) (by decide) (by decide)

/-- C4: rendering a `MessageError` always succeeds and depends only on its
function name and description: with a non-empty function name the result is
the name, a colon and a space, then the description; with an empty name it
is the description alone. -/
theorem c4_render_messageerror (m : MessageError) :
    (m.Func ≠ "" → MessageError.Error m = m.Func ++ ": " ++ m.Description) ∧
    (m.Func = "" → MessageError.Error m = m.Description) := by
  constructor <;> intro h <;> simp [MessageError.Error, h]

/-- Witness for C4: a non-empty and an empty function name, concretely. -/
theorem c4_render_messageerror_witness :
    MessageError.Error (messageErrorWithCode "decodeFoo" 4 "exceeds max")
      = "decodeFoo: exceeds max" ∧
    MessageError.Error (messageError "" "bad thing") = "bad thing" := by
  constructor
  · exact ((c4_render_messageerror
      (messageErrorWithCode "decodeFoo" 4 "exceeds max")).1
      (by decide)).trans (by decide)
  · exact ((c4_render_messageerror (messageError "" "bad thing")).2
      (by decide)).trans (by decide)

/-- C5: `Unwrap` round-trips the constructing category exactly and never
yields an absent (nil) result; an uncategorized `messageError` unwraps to
the zero-value code. -/
theorem c5_unwrap_roundtrip (f d : String) (c : ErrorCode) :
    MessageError.Unwrap (messageErrorWithCode f c d) = GoError.codeErr c ∧
    MessageError.Unwrap (messageErrorWithCode f c d) ≠ GoError.nilErr ∧
    MessageError.Unwrap (messageError f d) = GoError.codeErr ErrVarBytesTooLong := by
  refine ⟨rfl, ?_, rfl⟩
  simp [MessageError.Unwrap, messageErrorWithCode]

/-- C6: the uncategorized constructor defaults the category to the
enumeration's zero value `ErrVarBytesTooLong`, making it indistinguishable
from an explicitly `ErrVarBytesTooLong`-classified error under `Is` (in
both directions) and under `Unwrap`. -/
theorem c6_zero_value_conflation (f d g e : String) :
    (messageError f d).ErrorCode = ErrVarBytesTooLong ∧
    (∀ target : GoError, MessageError.Is (messageError f d) target =
      MessageError.Is (messageErrorWithCode g ErrVarBytesTooLong e) target) ∧
    (∀ c : ErrorCode, ErrorCode.Is c (GoError.msgErrPtr (some (messageError f d)))
      = ErrorCode.Is c
        (GoError.msgErrPtr (some (messageErrorWithCode g ErrVarBytesTooLong e)))) ∧
    MessageError.Unwrap (messageError f d)
      = MessageError.Unwrap (messageErrorWithCode g ErrVarBytesTooLong e) := by
  refine ⟨rfl, ?_, ?_, rfl⟩
  · intro target
    cases target with
    | msgErrPtr p => cases p <;> rfl
    | codeErr c => rfl
    | nilErr => rfl
    | otherErr => rfl
  · intro c
    rfl

/-- C7: matching against a target of unrelated shape (neither a
`MessageError` nor a bare `ErrorCode`) returns no-match (`false`), never a
failure, for both match operations. -/
theorem c7_unrelated_shape (e : ErrorCode) (m : MessageError) :
    ErrorCode.Is e GoError.otherErr = some false ∧
    MessageError.Is m GoError.otherErr = some false ∧
    ErrorCode.Is e GoError.nilErr = some false ∧
    MessageError.Is m GoError.nilErr = some false :=
  ⟨rfl, rfl, rfl, rfl⟩

/-- C8: the rendered text of a `MessageError` never reveals its category:
the output of `Error` is independent of the carried `ErrorCode`. -/
theorem c8_render_code_independent (f d : String) (c1 c2 : ErrorCode) :
    MessageError.Error (messageErrorWithCode f c1 d)
      = MessageError.Error (messageErrorWithCode f c2 d) :=
  rfl

/-- C9: matching is symmetric across the two recognized shapes: a bare
code against a `MessageError` equals the `MessageError` against the bare
code, and two `MessageError`s match symmetrically — both reduce to
equality of the carried codes. -/
theorem c9_match_symmetric (c : ErrorCode) (m m1 m2 : MessageError) :
    ErrorCode.Is c (GoError.msgErrPtr (some m))
      = MessageError.Is m (GoError.codeErr c) ∧
    MessageError.Is m1 (GoError.msgErrPtr (some m2))
      = MessageError.Is m2 (GoError.msgErrPtr (some m1)) ∧
    MessageError.Is m1 (GoError.msgErrPtr (some m2))
      = some (m1.ErrorCode == m2.ErrorCode) := by
  refine ⟨rfl, ?_, rfl⟩
  by_cases h : m1.ErrorCode = m2.ErrorCode
  · simp [MessageError.Is, h]
  · simp [MessageError.Is, h, Ne.symm h]

/-- C10: both match operations read the target's code field without a nil
guard: on any non-nil target they are total (return a boolean), while a
nil `*MessageError` target is a runtime fault (`none`), not a no-match
result. -/
theorem c10_nil_dereference (e : ErrorCode) (m : MessageError) (t : GoError)
    (ht : t ≠ GoError.msgErrPtr none) :
    (ErrorCode.Is e t).isSome = true ∧
    (MessageError.Is m t).isSome = true ∧
    ErrorCode.Is e (GoError.msgErrPtr none) = none ∧
    MessageError.Is m (GoError.msgErrPtr none) = none ∧
    ErrorCode.Is e (GoError.msgErrPtr none) ≠ some false ∧
    MessageError.Is m (GoError.msgErrPtr none) ≠ some false := by
  refine ⟨?_, ?_, rfl, rfl, by simp [ErrorCode.Is], by simp [MessageError.Is]⟩
  · cases t with
    | msgErrPtr p =>
      cases p with
      | none => exact absurd rfl ht
      | some mt => rfl
    | codeErr c => rfl
    | nilErr => rfl
    | otherErr => rfl
  · cases t with
    | msgErrPtr p =>
      cases p with
      | none => exact absurd rfl ht
      | some mt => rfl
    | codeErr c => rfl
    | nilErr => rfl
    | otherErr => rfl

/-- Witness for C10 at a concrete code, error and non-nil target. -/
theorem c10_nil_dereference_witness :
    (ErrorCode.Is 0 GoError.otherErr).isSome = true ∧
    (MessageError.Is (messageError "f" "d") GoError.otherErr).isSome = true ∧
    ErrorCode.Is 0 (GoError.msgErrPtr none) = none ∧
    MessageError.Is (messageError "f" "d") (GoError.msgErrPtr none) = none ∧
    ErrorCode.Is 0 (GoError.msgErrPtr none) ≠ some false ∧
    MessageError.Is (messageError "f" "d") (GoError.msgErrPtr none)
      ≠ some false :=
  c10_nil_dereference 0 (messageError "f" "d") GoError.otherErr (by decide)
